import Mathlib

/-!
Shallow embedding of the safety-policy engine of `fusabi-stdlib-ext`
(`src/safety.rs`, `src/error.rs`, `src/config.rs`, `src/net.rs`).

Modelling conventions:
* Rust `HashSet<T>` becomes `List T`; the only operation the policy code
  performs on a set is an any-match scan, which is order-insensitive, so the
  list order is irrelevant and universally quantified statements cover every
  insertion order.
* Rust `std::path::Path` becomes `FPath`: an absoluteness flag plus the list
  of normal components, mirroring `Path::components` (repeated separators and
  interior `.` segments dropped, `..` kept as a literal component).
  `Path::starts_with` is component-wise prefix, which `FPath.startsWith`
  reproduces.
* Rust `Duration` becomes `Nat` nanoseconds; `Duration::from_secs` is `secs`.
* String primitives (`to_lowercase`, `starts_with`, `ends_with`, slicing,
  `split`) are re-implemented by structural recursion over `List Char` so the
  kernel can evaluate them; Rust `to_lowercase` is modelled per-character
  (faithful on ASCII hosts, the domain of the host allowlist).
-/

/-- Rust `str::to_lowercase`, modelled per character. -/
def lowerStr (s : String) : String := ⟨s.data.map Char.toLower⟩

/-- Rust `str::starts_with` on string literals. -/
def strHasPre (s pre : String) : Bool := pre.data.isPrefixOf s.data

/-- Rust `str::ends_with` on string literals. -/
def strHasSuf (s suf : String) : Bool := suf.data.reverse.isPrefixOf s.data.reverse

/-- Rust byte slicing `&s[n..]` (ASCII: byte index = char index). -/
def strDrop (s : String) (n : Nat) : String := ⟨s.data.drop n⟩

/-- Split a character list at every occurrence of `sep` (Rust `str::split`). -/
def splitChar (sep : Char) : List Char → List (List Char)
  | [] => [[]]
  | c :: cs =>
    if c = sep then [] :: splitChar sep cs
    else
      match splitChar sep cs with
      | [] => [[c]]
      | h :: t => (c :: h) :: t

/-- The segment before the first occurrence of `sep`
(Rust `s.split(sep).next().unwrap_or(s)`). -/
def splitHead (sep : Char) : List Char → List Char
  | [] => []
  | c :: cs => if c = sep then [] else c :: splitHead sep cs

/-- String version of `splitHead`. -/
def takeToChar (sep : Char) (s : String) : String := ⟨splitHead sep s.data⟩

/-- Rust `Duration`, modelled as nanoseconds. -/
abbrev Duration := Nat

/-- Rust `Duration::from_secs`. -/
def secs (n : Nat) : Duration := n * 1000000000

/-- A filesystem path as the Rust `Path::components` view: absoluteness flag
(`RootDir` present) plus the remaining components in order. `..` is an
ordinary component; it is never resolved. -/
structure FPath where
  absolute : Bool
  comps : List String
deriving DecidableEq

/-- Rust `Path::new(s)` / `PathBuf::from(s)`: leading `/` marks an absolute
path; splitting on `/` drops empty and `.` segments, mirroring
`Path::components` normalisation. -/
def parsePath (s : String) : FPath :=
  { absolute := strHasPre s "/"
    comps := ((splitChar '/' s.data).map (fun cs => String.mk cs)).filter
      (fun c => !(c == "") && !(c == ".")) }

/-- Rust `Path::starts_with`: component-wise prefix (the `RootDir` component
is part of the sequence, so an absolute prefix never matches a relative path
and vice versa). -/
def FPath.startsWith (p pre : FPath) : Bool :=
  p.absolute == pre.absolute && pre.comps.isPrefixOf p.comps

/-- Rust `Path::display().to_string()`. -/
def FPath.display (p : FPath) : String :=
  (if p.absolute then "/" else "") ++ String.intercalate "/" p.comps

/-- `Error` from `src/error.rs` (payloads of foreign error types modelled as
their message strings; the source variant `Io(std::io::Error)` is named
`IoError` here). -/
inductive Error where
  | NotPermitted (msg : String)
  | PathNotAllowed (path : String)
  | HostNotAllowed (host : String)
  | Timeout (duration : Duration)
  | Process (msg : String)
  | ProcessExit (code : Int) (message : String)
  | Filesystem (msg : String)
  | Network (msg : String)
  | Format (msg : String)
  | Environment (msg : String)
  | ModuleNotAvailable (msg : String)
  | InvalidArgument (msg : String)
  | IoError (msg : String)
  | Host (msg : String)
  | Internal (msg : String)
  | TerminalUI (msg : String)
  | K8s (msg : String)
  | InvalidValue (msg : String)
  | Serialization (msg : String)
deriving DecidableEq

/-- The `thiserror` `Display` strings of `Error` (`#[error("...")]`).
The `Timeout` payload is rendered as nanoseconds here; no claim depends on
duration formatting. -/
def Error.toMessage : Error → String
  | .NotPermitted m => "operation not permitted: " ++ m
  | .PathNotAllowed p => "path not allowed: " ++ p
  | .HostNotAllowed h => "host not allowed: " ++ h
  | .Timeout d => "operation timed out after " ++ toString d ++ "ns"
  | .Process m => "process error: " ++ m
  | .ProcessExit c m => "process exited with code " ++ toString c ++ ": " ++ m
  | .Filesystem m => "filesystem error: " ++ m
  | .Network m => "network error: " ++ m
  | .Format m => "format error: " ++ m
  | .Environment m => "environment error: " ++ m
  | .ModuleNotAvailable m => "module not available: " ++ m
  | .InvalidArgument m => "invalid argument: " ++ m
  | .IoError m => "io error: " ++ m
  | .Host m => "host error: " ++ m
  | .Internal m => "internal error: " ++ m
  | .TerminalUI m => "terminal UI error: " ++ m
  | .K8s m => "kubernetes error: " ++ m
  | .InvalidValue m => "invalid value: " ++ m
  | .Serialization m => "serialization error: " ++ m

/-- The variant (tag) of an `Error` value: what a caller matching on the enum
can branch on. -/
def Error.kind : Error → String
  | .NotPermitted _ => "NotPermitted"
  | .PathNotAllowed _ => "PathNotAllowed"
  | .HostNotAllowed _ => "HostNotAllowed"
  | .Timeout _ => "Timeout"
  | .Process _ => "Process"
  | .ProcessExit _ _ => "ProcessExit"
  | .Filesystem _ => "Filesystem"
  | .Network _ => "Network"
  | .Format _ => "Format"
  | .Environment _ => "Environment"
  | .ModuleNotAvailable _ => "ModuleNotAvailable"
  | .InvalidArgument _ => "InvalidArgument"
  | .IoError _ => "IoError"
  | .Host _ => "Host"
  | .Internal _ => "Internal"
  | .TerminalUI _ => "TerminalUI"
  | .K8s _ => "K8s"
  | .InvalidValue _ => "InvalidValue"
  | .Serialization _ => "Serialization"

/-- `Error::not_permitted`. -/
def Error.not_permitted (msg : String) : Error := Error.NotPermitted msg

/-- `Error::path_not_allowed`. -/
def Error.path_not_allowed (path : String) : Error := Error.PathNotAllowed path

/-- `Error::host_not_allowed`. -/
def Error.host_not_allowed (host : String) : Error := Error.HostNotAllowed host

/-- `PathAllowlist` from `src/safety.rs` (sets as lists). -/
structure PathAllowlist where
  read : List FPath
  write : List FPath
  deny : List FPath
deriving DecidableEq

/-- `PathAllowlist::none` (the `Default`: everything empty). -/
def PathAllowlist.none : PathAllowlist := ⟨[], [], []⟩

/-- `PathAllowlist::all`: read and write allow the root prefix `/`. -/
def PathAllowlist.all : PathAllowlist := ⟨[parsePath "/"], [parsePath "/"], []⟩

/-- `PathAllowlist::allow_read`. -/
def PathAllowlist.allow_read (a : PathAllowlist) (p : FPath) : PathAllowlist :=
  { a with read := p :: a.read }

/-- `PathAllowlist::allow_write`. -/
def PathAllowlist.allow_write (a : PathAllowlist) (p : FPath) : PathAllowlist :=
  { a with write := p :: a.write }

/-- `PathAllowlist::allow_rw`. -/
def PathAllowlist.allow_rw (a : PathAllowlist) (p : FPath) : PathAllowlist :=
  (a.allow_read p).allow_write p

/-- `PathAllowlist::deny` (named `deny_path` because the field accessor
`PathAllowlist.deny` already takes the Rust method's name). -/
def PathAllowlist.deny_path (a : PathAllowlist) (p : FPath) : PathAllowlist :=
  { a with deny := p :: a.deny }

/-- `PathAllowlist::is_denied`. -/
def PathAllowlist.is_denied (a : PathAllowlist) (p : FPath) : Bool :=
  a.deny.any (fun denied => p.startsWith denied)

/-- `PathAllowlist::can_read`. -/
def PathAllowlist.can_read (a : PathAllowlist) (p : FPath) : Bool :=
  if a.is_denied p then false
  else a.read.any (fun allowed => p.startsWith allowed)

/-- `PathAllowlist::can_write`. -/
def PathAllowlist.can_write (a : PathAllowlist) (p : FPath) : Bool :=
  if a.is_denied p then false
  else a.write.any (fun allowed => p.startsWith allowed)

/-- `PathAllowlist::check_read`. -/
def PathAllowlist.check_read (a : PathAllowlist) (p : FPath) : Except Error Unit :=
  if a.can_read p then .ok () else .error (Error.path_not_allowed p.display)

/-- `PathAllowlist::check_write`. -/
def PathAllowlist.check_write (a : PathAllowlist) (p : FPath) : Except Error Unit :=
  if a.can_write p then .ok () else .error (Error.path_not_allowed p.display)

/-- `HostAllowlist` from `src/safety.rs` (sets as lists). -/
structure HostAllowlist where
  allowed : List String
  denied : List String
deriving DecidableEq

/-- `HostAllowlist::none` (the `Default`: everything empty). -/
def HostAllowlist.none : HostAllowlist := ⟨[], []⟩

/-- `HostAllowlist::all`: allow the wildcard `*`. -/
def HostAllowlist.all : HostAllowlist := ⟨["*"], []⟩

/-- `HostAllowlist::allow`. -/
def HostAllowlist.allow (a : HostAllowlist) (host : String) : HostAllowlist :=
  { a with allowed := host :: a.allowed }

/-- `HostAllowlist::deny`. -/
def HostAllowlist.deny (a : HostAllowlist) (host : String) : HostAllowlist :=
  { a with denied := host :: a.denied }

/-- `HostAllowlist::host_matches` (arguments in source order: host, pattern).
Note the pattern is lowercased here as well; the host argument is expected
already lowercased by the caller `can_access`. -/
def HostAllowlist.host_matches (host pat : String) : Bool :=
  if lowerStr pat = "*" then true
  else if strHasPre (lowerStr pat) "*." then
    strHasSuf host (strDrop (lowerStr pat) 1) || host == strDrop (lowerStr pat) 2
  else host == lowerStr pat

/-- `HostAllowlist::can_access`: lowercase the host, scan the deny list first
(any match rejects), then the allow list. -/
def HostAllowlist.can_access (a : HostAllowlist) (host : String) : Bool :=
  if a.denied.any (fun denied => HostAllowlist.host_matches (lowerStr host) denied) then
    false
  else
    a.allowed.any (fun allowed => HostAllowlist.host_matches (lowerStr host) allowed)

/-- `HostAllowlist::check` (the error carries the original, un-lowercased
host). -/
def HostAllowlist.check (a : HostAllowlist) (host : String) : Except Error Unit :=
  if a.can_access host then .ok () else .error (Error.host_not_allowed host)

/-- `SafetyConfig` from `src/safety.rs` (sets as lists, `Duration` as `Nat`
nanoseconds). -/
structure SafetyConfig where
  paths : PathAllowlist
  hosts : HostAllowlist
  env_vars : Option (List String)
  allow_process : Bool
  allowed_commands : Option (List String)
  default_timeout : Duration
  max_timeout : Duration
deriving DecidableEq

/-- `SafetyConfig::default` (the zero-value configuration). -/
def SafetyConfig.default : SafetyConfig :=
  { paths := PathAllowlist.none
    hosts := HostAllowlist.none
    env_vars := some []
    allow_process := false
    allowed_commands := none
    default_timeout := secs 30
    max_timeout := secs 300 }

/-- `SafetyConfig::new`. -/
def SafetyConfig.new : SafetyConfig := SafetyConfig.default

/-- `SafetyConfig::permissive`. -/
def SafetyConfig.permissive : SafetyConfig :=
  { paths := PathAllowlist.all
    hosts := HostAllowlist.all
    env_vars := none
    allow_process := true
    allowed_commands := none
    default_timeout := secs 60
    max_timeout := secs 3600 }

/-- `SafetyConfig::strict`. -/
def SafetyConfig.strict : SafetyConfig :=
  { paths := PathAllowlist.none
    hosts := HostAllowlist.none
    env_vars := some []
    allow_process := false
    allowed_commands := some []
    default_timeout := secs 10
    max_timeout := secs 30 }

/-- `SafetyConfig::with_paths`. -/
def SafetyConfig.with_paths (c : SafetyConfig) (paths : PathAllowlist) : SafetyConfig :=
  { c with paths := paths }

/-- `SafetyConfig::with_hosts`. -/
def SafetyConfig.with_hosts (c : SafetyConfig) (hosts : HostAllowlist) : SafetyConfig :=
  { c with hosts := hosts }

/-- `SafetyConfig::with_env_vars`. -/
def SafetyConfig.with_env_vars (c : SafetyConfig) (vars : List String) : SafetyConfig :=
  { c with env_vars := some vars }

/-- `SafetyConfig::allow_all_env`. -/
def SafetyConfig.allow_all_env (c : SafetyConfig) : SafetyConfig :=
  { c with env_vars := none }

/-- `SafetyConfig::with_allow_process`. -/
def SafetyConfig.with_allow_process (c : SafetyConfig) (allow : Bool) : SafetyConfig :=
  { c with allow_process := allow }

/-- `SafetyConfig::with_allowed_commands`. -/
def SafetyConfig.with_allowed_commands (c : SafetyConfig) (commands : List String) :
    SafetyConfig :=
  { c with allowed_commands := some commands }

/-- `SafetyConfig::with_default_timeout`. -/
def SafetyConfig.with_default_timeout (c : SafetyConfig) (timeout : Duration) : SafetyConfig :=
  { c with default_timeout := timeout }

/-- `SafetyConfig::with_max_timeout`. -/
def SafetyConfig.with_max_timeout (c : SafetyConfig) (timeout : Duration) : SafetyConfig :=
  { c with max_timeout := timeout }

/-- `SafetyConfig::can_access_env`. -/
def SafetyConfig.can_access_env (c : SafetyConfig) (name : String) : Bool :=
  match c.env_vars with
  | none => true
  | some allowed => allowed.contains name

/-- `SafetyConfig::check_env`. -/
def SafetyConfig.check_env (c : SafetyConfig) (name : String) : Except Error Unit :=
  if c.can_access_env name then .ok ()
  else .error (Error.not_permitted ("environment variable access denied: " ++ name))

/-- `SafetyConfig::can_execute`. -/
def SafetyConfig.can_execute (c : SafetyConfig) (command : String) : Bool :=
  if !c.allow_process then false
  else
    match c.allowed_commands with
    | none => true
    | some allowed => allowed.contains command

/-- `SafetyConfig::check_execute`: the process gate is tested first and fails
with its own message; only then is the optional command allowlist consulted. -/
def SafetyConfig.check_execute (c : SafetyConfig) (command : String) : Except Error Unit :=
  if !c.allow_process then
    .error (Error.not_permitted "process execution not allowed")
  else
    match c.allowed_commands with
    | some allowed =>
      if !allowed.contains command then
        .error (Error.not_permitted ("command not allowed: " ++ command))
      else .ok ()
    | none => .ok ()

/-- `SafetyConfig::clamp_timeout`. -/
def SafetyConfig.clamp_timeout (c : SafetyConfig) (timeout : Duration) : Duration :=
  min timeout c.max_timeout

/-- `ModuleConfig` from `src/config.rs` (`options` map as an association
list). -/
structure ModuleConfig where
  enabled : Bool
  timeout : Option Duration
  options : List (String × String)
deriving DecidableEq

/-- `ModuleConfig::default`. -/
def ModuleConfig.default : ModuleConfig :=
  { enabled := true, timeout := some (secs 30), options := [] }

/-- `ModuleConfig::disabled`. -/
def ModuleConfig.disabled : ModuleConfig :=
  { ModuleConfig.default with enabled := false }

/-- `StdlibConfig` from `src/config.rs`. -/
structure StdlibConfig where
  safety : SafetyConfig
  process : ModuleConfig
  fs : ModuleConfig
  path : ModuleConfig
  env : ModuleConfig
  format : ModuleConfig
  net : ModuleConfig
  time : ModuleConfig
  metrics : ModuleConfig
deriving DecidableEq

/-- `StdlibConfig::default`: process and net modules are disabled, everything
else enabled. -/
def StdlibConfig.default : StdlibConfig :=
  { safety := SafetyConfig.default
    process := ModuleConfig.disabled
    fs := ModuleConfig.default
    path := ModuleConfig.default
    env := ModuleConfig.default
    format := ModuleConfig.default
    net := ModuleConfig.disabled
    time := ModuleConfig.default
    metrics := ModuleConfig.default }

/-- `fusabi_host::Error`, as far as `src/net.rs` builds it: everything goes
through `Error::host_function(msg)`. -/
inductive HostFnError where
  | host_function (msg : String)
deriving DecidableEq

/-- `fusabi_host::Value`, the argument/result type of the net adapter
(source constructors `Int`, `String`, `Map`; the map is modelled as an
association list). -/
inductive Value where
  | IntV (n : Int)
  | Str (s : String)
  | MapV (entries : List (String × Value))

/-- `Value::as_str`. -/
def Value.as_str : Value → Option String
  | .Str s => some s
  | _ => none

/-- `Value`'s `Display`, used only to size the POST body in a log line; the
map case is a placeholder since no claim observes it. -/
def Value.to_string : Value → String
  | .Str s => s
  | .IntV n => toString n
  | .MapV _ => "<map>"

/-- The scheme-stripping step of `extract_host` in `src/net.rs`. -/
def strip_scheme (url : String) : String :=
  if strHasPre url "https://" then strDrop url 8
  else if strHasPre url "http://" then strDrop url 7
  else url

/-- The host candidate computed by `extract_host`: the scheme-stripped
substring before the first `/`, then before the first `:`. -/
def host_candidate (url : String) : String :=
  takeToChar ':' (takeToChar '/' (strip_scheme url))

/-- `extract_host` from `src/net.rs`: empty host is rejected before any
policy is consulted. -/
def extract_host (url : String) : Except HostFnError String :=
  if host_candidate url == "" then
    .error (.host_function "invalid URL: no host")
  else .ok (host_candidate url)

/-- The timeout resolution performed by `http_get`/`http_post`
(`src/net.rs` lines 33–36): a caller-supplied timeout is clamped, a missing
one resolves to the configured default, unclamped. -/
def resolve_timeout (safety : SafetyConfig) (timeout : Option Duration) : Duration :=
  match timeout with
  | some t => safety.clamp_timeout t
  | none => safety.default_timeout

/-- The simulated successful GET response value built by `http_get`. -/
def get_response (url : String) : Value :=
  .MapV [("status", .IntV 200),
         ("body", .Str ("Response from " ++ url)),
         ("headers", .MapV [])]

/-- The simulated successful POST response value built by `http_post`. -/
def post_response : Value :=
  .MapV [("status", .IntV 200),
         ("body", .Str "OK"),
         ("headers", .MapV [])]

/-- `http_get` from `src/net.rs`: first argument must be a string URL, the
host is extracted, the host policy checked (its error re-wrapped through
`host_function` on its display string), the timeout resolved, and only then
the (simulated) effect performed. -/
def http_get (safety : SafetyConfig) (timeout : Option Duration) (args : List Value) :
    Except HostFnError Value :=
  match args.head?.bind Value.as_str with
  | none => .error (.host_function "net.get: missing URL argument")
  | some url =>
    match extract_host url with
    | .error e => .error e
    | .ok host =>
      match safety.hosts.check host with
      | .error e => .error (.host_function e.toMessage)
      | .ok _ =>
        let _effective := resolve_timeout safety timeout
        .ok (get_response url)

/-- `http_post` from `src/net.rs`: same pipeline as `http_get`; the body
argument only feeds a log line. -/
def http_post (safety : SafetyConfig) (timeout : Option Duration) (args : List Value) :
    Except HostFnError Value :=
  match args.head?.bind Value.as_str with
  | none => .error (.host_function "net.post: missing URL argument")
  | some url =>
    let _body := ((args.drop 1).head?.map Value.to_string).getD ""
    match extract_host url with
    | .error e => .error e
    | .ok host =>
      match safety.hosts.check host with
      | .error e => .error (.host_function e.toMessage)
      | .ok _ =>
        let _effective := resolve_timeout safety timeout
        .ok post_response

/-- If any deny prefix component-wise covers `p`, the path is denied. -/
theorem can_read_false_of_denied (a : PathAllowlist) (p : FPath)
    (h : a.is_denied p = true) : a.can_read p = false := by
  simp [PathAllowlist.can_read, h]

/-- If any deny prefix component-wise covers `p`, the path is write-denied. -/
theorem can_write_false_of_denied (a : PathAllowlist) (p : FPath)
    (h : a.is_denied p = true) : a.can_write p = false := by
  simp [PathAllowlist.can_write, h]

/-- C1: deny overrides allow for paths. For every `PathAllowlist` (hence
every content and insertion order of the read/write allow-sets) and every
path that starts component-wise with some denied prefix, both `check_read`
and `check_write` fail with `PathNotAllowed`. -/
theorem C1_path_deny_overrides_allow (a : PathAllowlist) (p : FPath)
    (h : a.deny.any (fun d => p.startsWith d) = true) :
    a.check_read p = .error (Error.path_not_allowed p.display) ∧
    a.check_write p = .error (Error.path_not_allowed p.display) := by
  have hd : a.is_denied p = true := h
  refine ⟨?_, ?_⟩
  · simp [PathAllowlist.check_read, can_read_false_of_denied a p hd]
  · simp [PathAllowlist.check_write, can_write_false_of_denied a p hd]

/-- The allowlist of C1's concrete example: `allow_read("/data")` then
`deny("/data/secret")`. -/
def c1_allowlist : PathAllowlist :=
  (PathAllowlist.none.allow_read (parsePath "/data")).deny_path (parsePath "/data/secret")

/-- C1 witness: with `allow_read("/data")` and `deny("/data/secret")`,
`check_read("/data/secret/key")` and `check_write` both fail even though the
path starts with the allowed prefix `/data`. -/
theorem C1_path_deny_overrides_allow_witness :
    c1_allowlist.check_read (parsePath "/data/secret/key") =
      .error (Error.path_not_allowed (parsePath "/data/secret/key").display) ∧
    c1_allowlist.check_write (parsePath "/data/secret/key") =
      .error (Error.path_not_allowed (parsePath "/data/secret/key").display) :=
  C1_path_deny_overrides_allow c1_allowlist (parsePath "/data/secret/key") (by decide)

/-- The host allowlist of C2's concrete example: `allow("*.trusted.org")`
then `deny("evil.trusted.org")`. -/
def c2_hosts : HostAllowlist :=
  (HostAllowlist.none.allow "*.trusted.org").deny "evil.trusted.org"

/-- C2: host deny is evaluated before allow. For every `HostAllowlist` and
host, if any deny pattern matches the lowercased host then `check` fails with
`HostNotAllowed`, irrespective of the allow patterns; and on the concrete
example `allow("*.trusted.org")`, `deny("evil.trusted.org")`:
`sub.trusted.org` and `trusted.org` pass, `evil.trusted.org` and `other.com`
fail. -/
theorem C2_host_deny_evaluated_first :
    (∀ (a : HostAllowlist) (h : String),
      a.denied.any (fun d => HostAllowlist.host_matches (lowerStr h) d) = true →
      a.check h = .error (Error.host_not_allowed h)) ∧
    c2_hosts.check "sub.trusted.org" = .ok () ∧
    c2_hosts.check "trusted.org" = .ok () ∧
    c2_hosts.check "evil.trusted.org" = .error (Error.host_not_allowed "evil.trusted.org") ∧
    c2_hosts.check "other.com" = .error (Error.host_not_allowed "other.com") := by
  refine ⟨?_, by rfl, by rfl, by rfl, by rfl⟩
  intro a h hd
  have hacc : a.can_access h = false := by
    simp [HostAllowlist.can_access, hd]
  simp [HostAllowlist.check, hacc]

/-- C2 witness: the deny pattern `evil.trusted.org` matches, so `check`
rejects it despite the matching allow pattern `*.trusted.org`. -/
theorem C2_host_deny_evaluated_first_witness :
    c2_hosts.check "evil.trusted.org" = .error (Error.host_not_allowed "evil.trusted.org") :=
  C2_host_deny_evaluated_first.1 c2_hosts "evil.trusted.org" (by decide)

/-- C3 counterexample: at pattern `EXAMPLE.COM` and (lowercased) host
`example.com`, the code matches — `host_matches` lowercases the pattern
before comparing — while the claim's rule (which normalizes only the host)
predicts no match: the pattern is not `*`, does not start with `*.`, and the
host does not equal it exactly. -/
theorem C3_counterexample :
    HostAllowlist.host_matches "example.com" "EXAMPLE.COM" = true ∧
    ¬(("EXAMPLE.COM" : String) = "*" ∨
      (strHasPre "EXAMPLE.COM" "*." = true ∧
        (strHasSuf "example.com" (strDrop "EXAMPLE.COM" 1) = true ∨
         ("example.com" : String) = strDrop "EXAMPLE.COM" 2)) ∨
      ("example.com" : String) = "EXAMPLE.COM") := by
  decide

/-- C3 amended: the pattern is lowercased as well. For every pattern `p` and
host `h` (the host argument is the already-lowercased string `can_access`
passes in), `host_matches h p` holds iff lowercased `p` is `*`, or lowercased
`p` starts with `*.` and `h` ends with its `.suffix` part or equals its bare
suffix, or otherwise `h` equals lowercased `p` exactly. -/
theorem C3_host_matches_rule_amended (p h : String) :
    HostAllowlist.host_matches h p = true ↔
      (lowerStr p = "*" ∨
       (strHasPre (lowerStr p) "*." = true ∧
         (strHasSuf h (strDrop (lowerStr p) 1) = true ∨ h = strDrop (lowerStr p) 2)) ∨
       (lowerStr p ≠ "*" ∧ strHasPre (lowerStr p) "*." = false ∧ h = lowerStr p)) := by
  unfold HostAllowlist.host_matches
  by_cases h1 : lowerStr p = "*"
  · simp [h1]
  · cases h2 : strHasPre (lowerStr p) "*." with
    | true => simp [h1, h2]
    | false => simp [h1, h2]

/-- C3 amended witness: the wildcard pattern `*.Trusted.ORG` (mixed case)
matches host `sub.trusted.org` by the ends-with branch of the rule. -/
theorem C3_host_matches_rule_amended_witness :
    HostAllowlist.host_matches "sub.trusted.org" "*.Trusted.ORG" = true := by
  rw [C3_host_matches_rule_amended "*.Trusted.ORG" "sub.trusted.org"]
  right; left
  exact ⟨by decide, Or.inl (by decide)⟩

/-- C4 counterexample: `permissive()` does not allow path access for
arbitrary non-empty inputs — the relative path `foo` is non-empty yet denied
for both read and write, because the only allowed prefix is the absolute
root `/`, which never component-prefixes a relative path. -/
theorem C4_counterexample :
    ("foo" : String) ≠ "" ∧
    SafetyConfig.permissive.paths.can_read (parsePath "foo") = false ∧
    SafetyConfig.permissive.paths.can_write (parsePath "foo") = false := by
  decide

/-- C4 amended: `strict()` denies all five capabilities for arbitrary
inputs; `permissive()` allows hosts, commands and environment variables for
arbitrary inputs and paths for arbitrary absolute paths (a relative path is
still denied, since the allow prefix is the absolute root `/`); the
zero-value default `SafetyConfig` denies paths, hosts, env (explicit empty
env allowlist) and process; the default `StdlibConfig` registers the
path/env/time/format/metrics/fs modules (`enabled = true`) but disables the
process and net modules. -/
theorem C4_preset_sanity :
    (∀ p : FPath, SafetyConfig.strict.paths.can_read p = false ∧
                  SafetyConfig.strict.paths.can_write p = false) ∧
    (∀ h : String, SafetyConfig.strict.hosts.can_access h = false) ∧
    (∀ c : String, SafetyConfig.strict.can_execute c = false) ∧
    (∀ n : String, SafetyConfig.strict.can_access_env n = false) ∧
    (∀ p : FPath, p.absolute = true →
      SafetyConfig.permissive.paths.can_read p = true ∧
      SafetyConfig.permissive.paths.can_write p = true) ∧
    (∀ h : String, SafetyConfig.permissive.hosts.can_access h = true) ∧
    (∀ c : String, SafetyConfig.permissive.can_execute c = true) ∧
    (∀ n : String, SafetyConfig.permissive.can_access_env n = true) ∧
    (∀ p : FPath, SafetyConfig.default.paths.can_read p = false ∧
                  SafetyConfig.default.paths.can_write p = false) ∧
    (∀ h : String, SafetyConfig.default.hosts.can_access h = false) ∧
    (∀ n : String, SafetyConfig.default.can_access_env n = false) ∧
    (∀ c : String, SafetyConfig.default.can_execute c = false) ∧
    SafetyConfig.default.env_vars = some [] ∧
    StdlibConfig.default.path.enabled = true ∧
    StdlibConfig.default.env.enabled = true ∧
    StdlibConfig.default.time.enabled = true ∧
    StdlibConfig.default.format.enabled = true ∧
    StdlibConfig.default.metrics.enabled = true ∧
    StdlibConfig.default.fs.enabled = true ∧
    StdlibConfig.default.process.enabled = false ∧
    StdlibConfig.default.net.enabled = false := by
  refine ⟨?_, ?_, ?_, ?_, ?_, ?_, ?_, ?_, ?_, ?_, ?_, ?_, rfl,
          rfl, rfl, rfl, rfl, rfl, rfl, rfl, rfl⟩
  · intro p
    constructor <;>
      simp [SafetyConfig.strict, PathAllowlist.none, PathAllowlist.can_read,
            PathAllowlist.can_write, PathAllowlist.is_denied]
  · intro h
    simp [SafetyConfig.strict, HostAllowlist.none, HostAllowlist.can_access]
  · intro c
    simp [SafetyConfig.strict, SafetyConfig.can_execute]
  · intro n
    simp [SafetyConfig.strict, SafetyConfig.can_access_env]
  · intro p hp
    constructor <;>
      simp [SafetyConfig.permissive, PathAllowlist.all, PathAllowlist.can_read,
            PathAllowlist.can_write, PathAllowlist.is_denied, FPath.startsWith, hp,
            show parsePath "/" = ⟨true, []⟩ from rfl, List.isPrefixOf]
  · intro h
    simp [SafetyConfig.permissive, HostAllowlist.all, HostAllowlist.can_access,
          HostAllowlist.host_matches, show lowerStr "*" = "*" from rfl]
  · intro c
    simp [SafetyConfig.permissive, SafetyConfig.can_execute]
  · intro n
    simp [SafetyConfig.permissive, SafetyConfig.can_access_env]
  · intro p
    constructor <;>
      simp [SafetyConfig.default, PathAllowlist.none, PathAllowlist.can_read,
            PathAllowlist.can_write, PathAllowlist.is_denied]
  · intro h
    simp [SafetyConfig.default, HostAllowlist.none, HostAllowlist.can_access]
  · intro n
    simp [SafetyConfig.default, SafetyConfig.can_access_env]
  · intro c
    simp [SafetyConfig.default, SafetyConfig.can_execute]

/-- C4 witness: the permissive preset allows reading and writing the
absolute path `/etc/passwd`, and the strict preset denies reading it. -/
theorem C4_preset_sanity_witness :
    SafetyConfig.permissive.paths.can_read (parsePath "/etc/passwd") = true ∧
    SafetyConfig.strict.paths.can_read (parsePath "/etc/passwd") = false :=
  ⟨(C4_preset_sanity.2.2.2.2.1 (parsePath "/etc/passwd") (by decide)).1,
   (C4_preset_sanity.1 (parsePath "/etc/passwd")).1⟩

/-- C5: path containment is purely lexical on the supplied component
sequence. (a) If every configured read prefix is absolute, `check_read` of
any relative path fails; (b) symmetrically for write; (c) `..` segments are
not resolved: with `allow_read("/data")`, the path `/data/../etc/passwd`
passes `check_read` purely because its components start with those of
`/data`; (d) its component sequence keeps `..` literally. -/
theorem C5_lexical_containment :
    (∀ (a : PathAllowlist) (p : FPath),
      (∀ q ∈ a.read, q.absolute = true) → p.absolute = false →
      a.check_read p = .error (Error.path_not_allowed p.display)) ∧
    (∀ (a : PathAllowlist) (p : FPath),
      (∀ q ∈ a.write, q.absolute = true) → p.absolute = false →
      a.check_write p = .error (Error.path_not_allowed p.display)) ∧
    (PathAllowlist.none.allow_read (parsePath "/data")).check_read
      (parsePath "/data/../etc/passwd") = .ok () ∧
    (parsePath "/data/../etc/passwd").comps = ["data", "..", "etc", "passwd"] := by
  refine ⟨?_, ?_, by rfl, by rfl⟩
  · intro a p hq hp
    have hread : a.read.any (fun q => p.startsWith q) = false := by
      simp only [List.any_eq_false]
      intro q hmem
      simp [FPath.startsWith, hq q hmem, hp]
    simp [PathAllowlist.check_read, PathAllowlist.can_read, hread]
  · intro a p hq hp
    have hw : a.write.any (fun q => p.startsWith q) = false := by
      simp only [List.any_eq_false]
      intro q hmem
      simp [FPath.startsWith, hq q hmem, hp]
    simp [PathAllowlist.check_write, PathAllowlist.can_write, hw]

/-- C5 witness: with only the absolute prefix `/data` readable, the relative
path `etc/passwd` is rejected. -/
theorem C5_lexical_containment_witness :
    (PathAllowlist.none.allow_read (parsePath "/data")).check_read (parsePath "etc/passwd") =
      .error (Error.path_not_allowed (parsePath "etc/passwd").display) :=
  C5_lexical_containment.1 (PathAllowlist.none.allow_read (parsePath "/data"))
    (parsePath "etc/passwd") (by decide) (by decide)

/-- C6: command gate ordering. If the process gate is off, `check_execute`
fails with the distinct "process execution not allowed" message for every
command — including commands in the allowlist; only when the gate is on and
an allowlist is configured does membership of the literal command string
decide the result (ok iff member, else "command not allowed: …"). -/
theorem C6_command_gate_ordering :
    (∀ (cfg : SafetyConfig) (c : String), cfg.allow_process = false →
      cfg.check_execute c = .error (Error.not_permitted "process execution not allowed")) ∧
    (∀ (cfg : SafetyConfig) (c : String) (cmds : List String),
      cfg.allow_process = true → cfg.allowed_commands = some cmds →
      cfg.check_execute c =
        if cmds.contains c then .ok ()
        else .error (Error.not_permitted ("command not allowed: " ++ c))) := by
  constructor
  · intro cfg c hoff
    simp [SafetyConfig.check_execute, hoff]
  · intro cfg c cmds hon hcmds
    cases hmem : cmds.contains c <;>
      simp [SafetyConfig.check_execute, hon, hcmds, hmem] <;>
      simpa using hmem

/-- The configuration of C6's concrete example: gate off, `allowed = {ls}`. -/
def c6_cfg : SafetyConfig :=
  (SafetyConfig.new.with_allow_process false).with_allowed_commands ["ls"]

/-- C6 witness: with `allow_process = false` and `allowed = {ls}`,
`check_execute "ls"` fails with the gate-off message, not the
command-not-allowed message; with the gate on, the unlisted `rm` fails with
the command-not-allowed message. -/
theorem C6_command_gate_ordering_witness :
    c6_cfg.check_execute "ls" =
      .error (Error.not_permitted "process execution not allowed") ∧
    (c6_cfg.with_allow_process true).check_execute "rm" =
      .error (Error.not_permitted ("command not allowed: " ++ "rm")) := by
  constructor
  · exact C6_command_gate_ordering.1 c6_cfg "ls" (by decide)
  · have h := C6_command_gate_ordering.2 (c6_cfg.with_allow_process true) "rm" ["ls"]
      (by decide) (by decide)
    simpa using h

/-- The configuration of C7's concrete example: `max = 60s`. -/
def c7_cfg : SafetyConfig := SafetyConfig.new.with_max_timeout (secs 60)

/-- C7: timeout resolution and clamping. `clamp_timeout t = min t max`, so it
is idempotent and monotonic; a request of `None` resolves to the configured
default and a request of `Some t` to the clamped value (total functions, no
error path); with `max = 60s`, `clamp(120s) = 60s` and `clamp(30s) = 30s`. -/
theorem C7_timeout_clamping :
    (∀ (cfg : SafetyConfig) (t : Duration), cfg.clamp_timeout t = min t cfg.max_timeout) ∧
    (∀ (cfg : SafetyConfig) (t : Duration),
      cfg.clamp_timeout (cfg.clamp_timeout t) = cfg.clamp_timeout t) ∧
    (∀ (cfg : SafetyConfig) (s t : Duration), s ≤ t →
      cfg.clamp_timeout s ≤ cfg.clamp_timeout t) ∧
    (∀ cfg : SafetyConfig, resolve_timeout cfg none = cfg.default_timeout) ∧
    (∀ (cfg : SafetyConfig) (t : Duration),
      resolve_timeout cfg (some t) = min t cfg.max_timeout) ∧
    c7_cfg.clamp_timeout (secs 120) = secs 60 ∧
    c7_cfg.clamp_timeout (secs 30) = secs 30 := by
  refine ⟨fun cfg t => rfl, ?_, ?_, fun cfg => rfl, fun cfg t => rfl, by decide, by decide⟩
  · intro cfg t
    simp [SafetyConfig.clamp_timeout, min_assoc]
  · intro cfg s t hst
    exact min_le_min hst le_rfl

/-- C7 witness: clamping is monotone on the concrete pair `30s ≤ 120s`, and
`None` resolves to the default. -/
theorem C7_timeout_clamping_witness :
    c7_cfg.clamp_timeout (secs 30) ≤ c7_cfg.clamp_timeout (secs 120) ∧
    resolve_timeout c7_cfg none = c7_cfg.default_timeout :=
  ⟨C7_timeout_clamping.2.2.1 c7_cfg (secs 30) (secs 120) (by decide),
   C7_timeout_clamping.2.2.2.1 c7_cfg⟩

/-- A gate-on configuration with `allowed = {ls}` for C8's counterexample. -/
def c8_cfg : SafetyConfig :=
  (SafetyConfig.new.with_allow_process true).with_allowed_commands ["ls"]

/-- C8 counterexample: the error surface has no separate kinds for env and
command denial. On the strict preset, `check_env "HOME"` fails with the
generic `NotPermitted` variant — the very same kind as the gate-off process
error — and an unlisted command fails with `NotPermitted` too; callers
cannot branch on the kind for these denials, only parse the message. -/
theorem C8_counterexample :
    SafetyConfig.strict.check_env "HOME" =
      .error (Error.NotPermitted "environment variable access denied: HOME") ∧
    c8_cfg.check_execute "rm" =
      .error (Error.NotPermitted "command not allowed: rm") ∧
    (Error.NotPermitted "environment variable access denied: HOME").kind =
      (Error.NotPermitted "process execution not allowed").kind ∧
    (Error.NotPermitted "command not allowed: rm").kind =
      (Error.NotPermitted "process execution not allowed").kind := by
  refine ⟨by rfl, by rfl, rfl, rfl⟩

/-- C8 amended: the error surface distinguishes, as separate kinds, path
denial (`PathNotAllowed` carrying the path) and host denial
(`HostNotAllowed` carrying the host), both surfaced verbatim, in addition to
the generic `NotPermitted` gate-off kind, and these three kinds are pairwise
distinct; environment-variable and command denials, however, are reported
under the generic `NotPermitted` kind with the offending name or command
embedded verbatim in the message, not as kinds of their own. -/
theorem C8_error_surface :
    (∀ (a : PathAllowlist) (p : FPath), a.can_read p = false →
      a.check_read p = .error (Error.PathNotAllowed p.display)) ∧
    (∀ (a : HostAllowlist) (h : String), a.can_access h = false →
      a.check h = .error (Error.HostNotAllowed h)) ∧
    (∀ (cfg : SafetyConfig) (n : String), cfg.can_access_env n = false →
      cfg.check_env n =
        .error (Error.NotPermitted ("environment variable access denied: " ++ n))) ∧
    (∀ (cfg : SafetyConfig) (cmds : List String) (c : String),
      cfg.allow_process = true → cfg.allowed_commands = some cmds →
      cmds.contains c = false →
      cfg.check_execute c =
        .error (Error.NotPermitted ("command not allowed: " ++ c))) ∧
    (∀ m p : String, (Error.NotPermitted m).kind ≠ (Error.PathNotAllowed p).kind) ∧
    (∀ m h : String, (Error.NotPermitted m).kind ≠ (Error.HostNotAllowed h).kind) ∧
    (∀ p h : String, (Error.PathNotAllowed p).kind ≠ (Error.HostNotAllowed h).kind) := by
  refine ⟨?_, ?_, ?_, ?_, ?_, ?_, ?_⟩
  · intro a p hcr
    simp [PathAllowlist.check_read, hcr, Error.path_not_allowed]
  · intro a h hca
    simp [HostAllowlist.check, hca, Error.host_not_allowed]
  · intro cfg n hde
    simp [SafetyConfig.check_env, hde, Error.not_permitted]
  · intro cfg cmds c hon hcmds hmem
    simp [SafetyConfig.check_execute, hon, hcmds, hmem, Error.not_permitted]
    simpa using hmem
  · intro m p
    show ("NotPermitted" : String) ≠ "PathNotAllowed"
    decide
  · intro m h
    show ("NotPermitted" : String) ≠ "HostNotAllowed"
    decide
  · intro p h
    show ("PathNotAllowed" : String) ≠ "HostNotAllowed"
    decide

/-- C8 witness: concrete denials of every flavour, with the offending
operand surfaced verbatim. -/
theorem C8_error_surface_witness :
    SafetyConfig.strict.paths.check_read (parsePath "/etc/passwd") =
      .error (Error.PathNotAllowed (parsePath "/etc/passwd").display) ∧
    SafetyConfig.strict.hosts.check "evil.com" =
      .error (Error.HostNotAllowed "evil.com") ∧
    SafetyConfig.strict.check_env "PATH" =
      .error (Error.NotPermitted ("environment variable access denied: " ++ "PATH")) ∧
    c8_cfg.check_execute "cat" =
      .error (Error.NotPermitted ("command not allowed: " ++ "cat")) :=
  ⟨C8_error_surface.1 SafetyConfig.strict.paths (parsePath "/etc/passwd") (by decide),
   C8_error_surface.2.1 SafetyConfig.strict.hosts "evil.com" (by decide),
   C8_error_surface.2.2.1 SafetyConfig.strict "PATH" (by decide),
   C8_error_surface.2.2.2.1 c8_cfg ["ls"] "cat" (by decide) (by decide) (by decide)⟩

/-- The invalid-URL error is distinct from every host-policy denial error the
net adapter can produce: the wrapped messages differ at the first
character. -/
theorem invalid_url_msg_ne_host_denied (h : String) :
    HostFnError.host_function "invalid URL: no host" ≠
      HostFnError.host_function (Error.HostNotAllowed h).toMessage := by
  intro heq
  injection heq with heq2
  simp only [Error.toMessage] at heq2
  have h3 := congrArg String.data heq2
  rw [String.data_append] at h3
  have h4 := congrArg List.head? h3
  rw [show List.head? (("invalid URL: no host" : String).data) = some 'i' from rfl] at h4
  rw [show (("host not allowed: " : String).data ++ h.data) =
        'h' :: (("ost not allowed: " : String).data ++ h.data) from rfl] at h4
  rw [show List.head? ('h' :: (("ost not allowed: " : String).data ++ h.data)) = some 'h'
        from rfl] at h4
  exact absurd (Option.some.inj h4) (by decide)

/-- C9: malformed network input fails fast before any policy check. If the
extracted host candidate (scheme-stripped substring before the first `/` and
`:`) is empty, `http_get` and `http_post` return the invalid-URL error for
every safety configuration — no default-allow on parse failure — and that
error differs from every host-denial error; for a well-formed URL the host
is extracted and the host policy decides before the simulated effect:
denial maps to the wrapped `HostNotAllowed` message, success to the
response value. -/
theorem C9_malformed_url_fails_fast :
    (∀ (url : String) (safety : SafetyConfig) (t : Option Duration),
      host_candidate url = "" →
      http_get safety t [Value.Str url] =
        .error (.host_function "invalid URL: no host") ∧
      http_post safety t [Value.Str url] =
        .error (.host_function "invalid URL: no host")) ∧
    (∀ h : String,
      HostFnError.host_function "invalid URL: no host" ≠
        HostFnError.host_function (Error.HostNotAllowed h).toMessage) ∧
    (∀ (url host : String) (safety : SafetyConfig) (t : Option Duration),
      extract_host url = .ok host →
      (safety.hosts.can_access host = false →
        http_get safety t [Value.Str url] =
          .error (.host_function (Error.HostNotAllowed host).toMessage)) ∧
      (safety.hosts.can_access host = true →
        http_get safety t [Value.Str url] = .ok (get_response url))) := by
  refine ⟨?_, invalid_url_msg_ne_host_denied, ?_⟩
  · intro url safety t hc
    constructor <;>
      simp [http_get, http_post, Value.as_str, extract_host, hc]
  · intro url host safety t hok
    constructor
    · intro hden
      simp [http_get, Value.as_str, hok, HostAllowlist.check, hden,
            Error.host_not_allowed]
    · intro hal
      simp [http_get, Value.as_str, hok, HostAllowlist.check, hal]

/-- The host allowlist used to witness C9's well-formed-URL branch. -/
def c9_cfg : SafetyConfig :=
  SafetyConfig.new.with_hosts (HostAllowlist.none.allow "example.com")

/-- C9 witness: `https://` has an empty host candidate and is rejected even
under the permissive preset; `https://example.com/api` passes the policy and
reaches the effect; `https://evil.com/x` is stopped by the host policy. -/
theorem C9_malformed_url_fails_fast_witness :
    http_get SafetyConfig.permissive none [Value.Str "https://"] =
      .error (.host_function "invalid URL: no host") ∧
    http_get c9_cfg none [Value.Str "https://example.com/api"] =
      .ok (get_response "https://example.com/api") ∧
    http_get c9_cfg none [Value.Str "https://evil.com/x"] =
      .error (.host_function (Error.HostNotAllowed "evil.com").toMessage) :=
  ⟨(C9_malformed_url_fails_fast.1 "https://" SafetyConfig.permissive none (by decide)).1,
   (C9_malformed_url_fails_fast.2.2 "https://example.com/api" "example.com" c9_cfg none
      (by rfl)).2 (by decide),
   (C9_malformed_url_fails_fast.2.2 "https://evil.com/x" "evil.com" c9_cfg none
      (by rfl)).1 (by decide)⟩

/-- C10 (implicit): the configured default timeout is exempt from clamping.
For every base configuration, default `d` and maximum `m` with `d > m`,
resolving a `None` request (as `http_get`/`http_post` do) yields exactly the
unclamped `d`, strictly exceeding the maximum; only a caller-supplied
`Some t` passes through `clamp_timeout` and stays `≤ m`. -/
theorem C10_default_timeout_exempt (cfg : SafetyConfig) (d m : Duration) (hdm : m < d) :
    resolve_timeout ((cfg.with_default_timeout d).with_max_timeout m) none = d ∧
    ((cfg.with_default_timeout d).with_max_timeout m).max_timeout <
      resolve_timeout ((cfg.with_default_timeout d).with_max_timeout m) none ∧
    (∀ t : Duration,
      resolve_timeout ((cfg.with_default_timeout d).with_max_timeout m) (some t) ≤ m) :=
  ⟨rfl, hdm, fun t => min_le_right t m⟩

/-- C10 witness: with default `100s` and max `50s`, a `None` request resolves
to `100s`, above the maximum. -/
theorem C10_default_timeout_exempt_witness :
    resolve_timeout
      ((SafetyConfig.new.with_default_timeout (secs 100)).with_max_timeout (secs 50)) none =
      secs 100 :=
  (C10_default_timeout_exempt SafetyConfig.new (secs 100) (secs 50) (by decide)).1
